import Mathlib

-- Verification of the example script src/examples/simple_usage.py.
-- The script only prints text and invokes an external client library
-- (tsfm_client) whose behaviour is unknown; every interaction with that
-- library may raise an exception.  We embed the script shallowly: an
-- Oracle fixes, for each call site into the client library, whether the
-- call succeeds (and with which rendered value) or raises (and with
-- which message).  The script itself is a computation in a
-- writer-plus-exception monad M: it accumulates the list of printed
-- lines and either finishes normally or aborts with an uncaught
-- exception message.

namespace TSFM

-- The monad of the embedded script: the list of printed lines together
-- with either normal completion or an uncaught Python exception,
-- rendered by its message string.
abbrev M (α : Type) : Type := List String × Except String α

def M.bind {α β : Type} (x : M α) (f : α → M β) : M β :=
  match x with
  | (out, Except.error e) => (out, Except.error e)
  | (out, Except.ok a) => (out ++ (f a).1, (f a).2)

instance : Monad M where
  pure a := ([], Except.ok a)
  bind := M.bind

-- One print statement: emits exactly one line.
def emit (s : String) : M Unit := ([s], Except.ok ())

-- One call into the external client library (or an attribute access on
-- one of its response objects): prints nothing, returns the value the
-- oracle assigns to this site, or raises.
def callx {α : Type} (r : Except String α) : M α := ([], r)

-- A Python try/except Exception block: if the body raises, the handler
-- runs on the message and the block completes normally afterwards.
def tryExcept (body : M Unit) (handler : String → M Unit) : M Unit :=
  match body with
  | (out, Except.error e) => (out ++ (handler e).1, (handler e).2)
  | (out, Except.ok _) => (out, Except.ok ())

-- The repeated generic handler of the script, except Exception as e
-- followed by a print of the error, source lines 34 and 62 and 84 and
-- 113 and 129 and 170.
def errH (e : String) : M Unit := emit ("❌ Error: " ++ e)

-- The dedicated inner handler of example 4, source lines 110 and 111.
def totoH (e : String) : M Unit := emit ("⚠️  TOTO model not available: " ++ e)

-- Python string repetition, as in the separator prints of the script.
def strTimes (s : String) (n : Nat) : String := String.join (List.replicate n s)

-- A response object of the external client library.  Each attribute is
-- itself oracle-controlled: reading it yields a rendered value or
-- raises.  The confidence_intervals attribute may also be absent
-- (falsy), which the script tests before printing it.
structure Response where
  forecast : Except String String
  model_name : Except String String
  metadata : Except String String
  confidence_intervals : Except String (Option String)
  to_pandas : Except String String

-- The behaviour of the external world, one field per call site of the
-- script into the client library, in source order, plus the rendering
-- of the two random pandas series the script prints.
structure Oracle where
  predict_global : Except String Response
  simpleTSFMClient : Except String Unit
  list_models : Except String String
  predict_2a : Except String Response
  predict_2b : Except String Response
  predict_3 : Except String Response
  predict_4_chronos : Except String Response
  predict_4_toto : Except String Response
  health_check : Except String String
  get_model_info : Except String String
  predict_pandas : Except String Response
  random_head : String
  random_tail : String

-- Body of the try block of example 1, source lines 26 to 33.
def ex1body (o : Oracle) : M Unit := do
  let response ← callx o.predict_global
  let f ← callx response.forecast
  emit ("✅ Forecast: " ++ f)
  let m ← callx response.model_name
  emit ("   Model: " ++ m)
  let d ← callx response.metadata
  emit ("   Metadata: " ++ d)

-- Example 1, source lines 19 to 35.
def example1 (o : Oracle) : M Unit := do
  emit "\n1. Quick Prediction (Global Function)"
  emit (strTimes "-" 40)
  emit "Input data: [10, 12, 13, 15, 17, 16, 18, 20, 22, 25]"
  tryExcept (ex1body o) errH

-- Body of the try block of example 2, source lines 43 to 61.
def ex2body (o : Oracle) : M Unit := do
  let models ← callx o.list_models
  emit ("Available models: " ++ models)
  let r1 ← callx o.predict_2a
  let f1 ← callx r1.forecast
  emit ("✅ Simple forecast: " ++ f1)
  let r2 ← callx o.predict_2b
  let f2 ← callx r2.forecast
  emit ("✅ Forecast with CI: " ++ f2)
  let ci ← callx r2.confidence_intervals
  match ci with
  | some c => emit ("   Confidence intervals: " ++ c)
  | none => pure ()

-- Example 2, source lines 37 to 63.  The client construction on source
-- line 41 happens after the heading prints and before the try block,
-- outside any handler.
def example2 (o : Oracle) : M Unit := do
  emit "\n2. Client Instance (Multiple Predictions)"
  emit (strTimes "-" 40)
  let _client ← callx o.simpleTSFMClient
  tryExcept (ex2body o) errH

-- Body of the try block of example 3, source lines 69 to 82.  The
-- pandas data creation and its two prints happen inside the try block;
-- the sample values are random, so their rendering comes from the
-- oracle.
def ex3body (o : Oracle) : M Unit := do
  emit "Pandas series shape: (20,)"
  emit ("Sample values: " ++ o.random_head)
  let r ← callx o.predict_3
  let f ← callx r.forecast
  emit ("✅ Forecast: " ++ f)

-- Example 3, source lines 65 to 85.
def example3 (o : Oracle) : M Unit := do
  emit "\n3. Using Pandas Series"
  emit (strTimes "-" 40)
  tryExcept (ex3body o) errH

-- Inner try body of example 4, source lines 103 to 109.
def ex4inner (o : Oracle) : M Unit := do
  let r2 ← callx o.predict_4_toto
  let f2 ← callx r2.forecast
  emit ("✅ TOTO Open Base: " ++ f2)

-- Outer try body of example 4, source lines 93 to 111.
def ex4body (o : Oracle) : M Unit := do
  let r1 ← callx o.predict_4_chronos
  let f1 ← callx r1.forecast
  emit ("✅ Chronos T5 Small: " ++ f1)
  tryExcept (ex4inner o) totoH

-- Example 4, source lines 87 to 114.  The list test_data is defined but
-- never printed.
def example4 (o : Oracle) : M Unit := do
  emit "\n4. Different Models"
  emit (strTimes "-" 40)
  tryExcept (ex4body o) errH

-- Body of the try block of example 5, source lines 120 to 127.
def ex5body (o : Oracle) : M Unit := do
  let hs ← callx o.health_check
  emit ("✅ Health check: " ++ hs)
  let info ← callx o.get_model_info
  emit ("✅ Model info: " ++ info)

-- Example 5, source lines 116 to 130.
def example5 (o : Oracle) : M Unit := do
  emit "\n5. Model Info & Health Check"
  emit (strTimes "-" 40)
  tryExcept (ex5body o) errH

-- The function main, source lines 12 to 132.
def pyMain (o : Oracle) : M Unit := do
  emit "🚀 TSFM Client - Simple Usage Examples"
  emit (strTimes "=" 50)
  example1 o
  example2 o
  example3 o
  example4 o
  example5 o
  emit "\n🎉 All examples completed!"

-- Body of the try block of pandas_example, source lines 155 to 171.
def pandasBody (o : Oracle) : M Unit := do
  let r ← callx o.predict_pandas
  let f ← callx r.forecast
  emit ("\n✅ 10-day forecast: " ++ f)
  let df ← callx r.to_pandas
  emit "\nForecast DataFrame:"
  emit df

-- The function pandas_example, source lines 135 to 171.  The data
-- creation and the two prints before the try block involve only pandas
-- and numpy; the random tail rendering comes from the oracle.
def pandasExample (o : Oracle) : M Unit := do
  emit "\n📊 Advanced Pandas Example"
  emit (strTimes "=" 30)
  emit "Sample data (last 5 days):"
  emit o.random_tail
  tryExcept (pandasBody o) errH

-- The dunder main block, source lines 174 to 182: the banner prints,
-- then main, then pandas_example.
def script (o : Oracle) : M Unit := do
  emit "Make sure the TSFM server is running on http://localhost:8000"
  emit ""
  pyMain o
  pandasExample o

-- The argument shape of each predict invocation of the script, read off
-- the call sites: source lines 27, 49, 53, 77, 95, 104 and 157.
structure PredictCall where
  line : Nat
  has_data : Bool
  forecast_horizon : Option Nat
  confidence_intervals : Option Bool
  model : Option String
deriving DecidableEq

def predictCalls : List PredictCall :=
  [⟨27, true, some 5, none, none⟩,
   ⟨49, true, none, none, none⟩,
   ⟨53, true, some 3, some true, none⟩,
   ⟨77, true, some 7, none, some "chronos-t5-small"⟩,
   ⟨95, true, some 3, none, some "chronos-t5-small"⟩,
   ⟨104, true, some 3, none, some "toto-open-base-1.0"⟩,
   ⟨157, true, some 10, some true, none⟩]

-- The bare predict call of source line 49, which passes only the data.
def bareCall : PredictCall := ⟨49, true, none, none, none⟩

-- Substring test on character lists and strings, used to state that a
-- printed line does or does not mention a value.
def hasSub (pat : List Char) : List Char → Bool
  | [] => pat.isPrefixOf ([] : List Char)
  | c :: rest => pat.isPrefixOf (c :: rest) || hasSub pat rest

def strHas (s pat : String) : Bool := hasSub pat.data s.data

-- A run in which every call into the client library succeeds, with
-- fixed renderings of the returned values.
def okResponse : Response :=
  ⟨Except.ok "FORECAST_VALUES", Except.ok "MODEL", Except.ok "META",
   Except.ok (some "CI_BOUNDS"), Except.ok "DATAFRAME"⟩

def allOk : Oracle :=
  { predict_global := Except.ok okResponse
    simpleTSFMClient := Except.ok ()
    list_models := Except.ok "MODELS"
    predict_2a := Except.ok okResponse
    predict_2b := Except.ok okResponse
    predict_3 := Except.ok okResponse
    predict_4_chronos := Except.ok okResponse
    predict_4_toto := Except.ok okResponse
    health_check := Except.ok "HEALTH"
    get_model_info := Except.ok "INFO"
    predict_pandas := Except.ok okResponse
    random_head := "HEAD_VALUES"
    random_tail := "TAIL_VALUES" }

-- A run in which every guarded call into the client library raises but
-- the client construction succeeds.
def allGuardedFail : Oracle :=
  { predict_global := Except.error "srv down"
    simpleTSFMClient := Except.ok ()
    list_models := Except.error "srv down"
    predict_2a := Except.error "srv down"
    predict_2b := Except.error "srv down"
    predict_3 := Except.error "srv down"
    predict_4_chronos := Except.error "srv down"
    predict_4_toto := Except.error "srv down"
    health_check := Except.error "srv down"
    get_model_info := Except.error "srv down"
    predict_pandas := Except.error "srv down"
    random_head := "HEAD_VALUES"
    random_tail := "TAIL_VALUES" }

-- A run in which only the client construction raises.
def ctorFault (e : String) : Oracle :=
  { allOk with simpleTSFMClient := Except.error e }

def o_ctor_fail : Oracle := ctorFault "no api key"

-- A run in which example 1 raises and is caught, and then the client
-- construction raises.
def o_caught_then_ctor : Oracle :=
  { allOk with
    predict_global := Except.error "net down"
    simpleTSFMClient := Except.error "no api key" }

-- A run in which only the TOTO predict of example 4 raises.
def o_toto_fail : Oracle :=
  { allOk with predict_4_toto := Except.error "boom" }

-- A run in which only list_models raises.
def o_lm_fail : Oracle :=
  { allOk with list_models := Except.error "listing down" }

-- A run in which only the TOTO predict raises, with a distinct message.
def o_c9 : Oracle :=
  { allOk with predict_4_toto := Except.error "not deployed" }

-- The run allOk with exactly one guarded call site raising e; the ten
-- guarded call sites into the client library, in source order.
def faultAt (k : Fin 10) (e : String) : Oracle :=
  match k.val with
  | 0 => { allOk with predict_global := Except.error e }
  | 1 => { allOk with list_models := Except.error e }
  | 2 => { allOk with predict_2a := Except.error e }
  | 3 => { allOk with predict_2b := Except.error e }
  | 4 => { allOk with predict_3 := Except.error e }
  | 5 => { allOk with predict_4_chronos := Except.error e }
  | 6 => { allOk with predict_4_toto := Except.error e }
  | 7 => { allOk with health_check := Except.error e }
  | 8 => { allOk with get_model_info := Except.error e }
  | _ => { allOk with predict_pandas := Except.error e }

-- The failure line the script prints when the call at guarded site k
-- raises e: the TOTO site has its own message form, all others share
-- the generic one.
def faultLine (k : Fin 10) (e : String) : String :=
  match k.val with
  | 6 => "⚠️  TOTO model not available: " ++ e
  | _ => "❌ Error: " ++ e

-- The run allOk with exactly one of the seven predict call sites
-- raising e, in source order of the predict invocations.
def predictFault (k : Fin 7) (e : String) : Oracle :=
  match k.val with
  | 0 => { allOk with predict_global := Except.error e }
  | 1 => { allOk with predict_2a := Except.error e }
  | 2 => { allOk with predict_2b := Except.error e }
  | 3 => { allOk with predict_3 := Except.error e }
  | 4 => { allOk with predict_4_chronos := Except.error e }
  | 5 => { allOk with predict_4_toto := Except.error e }
  | _ => { allOk with predict_pandas := Except.error e }

def predictFaultLine (k : Fin 7) (e : String) : String :=
  match k.val with
  | 5 => "⚠️  TOTO model not available: " ++ e
  | _ => "❌ Error: " ++ e

-- Whether, in the all-success run, any line of the example 5 block
-- mentions the forecast value or a failure marker.
def exFiveMentions : Bool :=
  (example5 allOk).1.any fun s => strHas s "FORECAST_VALUES" || strHas s "❌"

-- Basic computation lemmas for the monad.

@[simp] theorem bind_is_M_bind {α β : Type} (x : M α) (f : α → M β) :
    x >>= f = M.bind x f := rfl

@[simp] theorem bind_emit {β : Type} (s : String) (f : Unit → M β) :
    M.bind (emit s) f = (s :: (f ()).1, (f ()).2) := by
  simp [M.bind, emit]

@[simp] theorem bind_callx_ok {α β : Type} (a : α) (f : α → M β) :
    M.bind (callx (Except.ok a)) f = f a := by
  simp [M.bind, callx]

@[simp] theorem bind_callx_err {α β : Type} (e : String) (f : α → M β) :
    M.bind (callx (Except.error e)) f = ([], Except.error e) := rfl

theorem bind_of_snd_ok {β : Type} (x : M Unit) (f : Unit → M β)
    (hx : x.2 = Except.ok ()) : M.bind x f = (x.1 ++ (f ()).1, (f ()).2) := by
  rcases x with ⟨out, r⟩
  cases r with
  | error e => simp at hx
  | ok a => cases a; rfl

theorem bind_of_snd_err {α β : Type} (x : M α) (f : α → M β) (e : String)
    (hx : x.2 = Except.error e) : M.bind x f = (x.1, Except.error e) := by
  rcases x with ⟨out, r⟩
  cases r with
  | error e2 => simp_all [M.bind]
  | ok a => simp at hx

@[simp] theorem tryExcept_errH_snd (b : M Unit) :
    (tryExcept b errH).2 = Except.ok () := by
  rcases b with ⟨out, r⟩
  cases r <;> rfl

@[simp] theorem tryExcept_totoH_snd (b : M Unit) :
    (tryExcept b totoH).2 = Except.ok () := by
  rcases b with ⟨out, r⟩
  cases r <;> rfl

theorem mem_tryExcept_body {s : String} (b : M Unit) (h : String → M Unit)
    (hs : s ∈ b.1) : s ∈ (tryExcept b h).1 := by
  rcases b with ⟨out, r⟩
  cases r with
  | error e => simp only [tryExcept]; exact List.mem_append_left _ hs
  | ok a => simpa [tryExcept] using hs

-- Each example block terminates normally; example 2 does so exactly
-- when the unguarded client construction succeeds.

theorem ex1_snd (o : Oracle) : (example1 o).2 = Except.ok () := by
  simp [example1]

theorem ex2_snd_ok (o : Oracle) (h : o.simpleTSFMClient = Except.ok ()) :
    (example2 o).2 = Except.ok () := by
  simp [example2, h]

theorem ex2_eq_err (o : Oracle) (e : String)
    (h : o.simpleTSFMClient = Except.error e) :
    example2 o =
      (["\n2. Client Instance (Multiple Predictions)", strTimes "-" 40],
        Except.error e) := by
  simp [example2, h]

theorem ex3_snd (o : Oracle) : (example3 o).2 = Except.ok () := by
  simp [example3]

theorem ex4_snd (o : Oracle) : (example4 o).2 = Except.ok () := by
  simp [example4]

theorem ex5_snd (o : Oracle) : (example5 o).2 = Except.ok () := by
  simp [example5]

theorem pandas_snd (o : Oracle) : (pandasExample o).2 = Except.ok () := by
  simp [pandasExample]

-- The printed lines of each block start with its heading and separator
-- and continue with the output of its guarded part.

theorem ex1_fst (o : Oracle) :
    (example1 o).1 =
      "\n1. Quick Prediction (Global Function)" :: strTimes "-" 40 ::
        "Input data: [10, 12, 13, 15, 17, 16, 18, 20, 22, 25]" ::
          (tryExcept (ex1body o) errH).1 := by
  simp [example1]

theorem ex2_fst_ok (o : Oracle) (h : o.simpleTSFMClient = Except.ok ()) :
    (example2 o).1 =
      "\n2. Client Instance (Multiple Predictions)" :: strTimes "-" 40 ::
        (tryExcept (ex2body o) errH).1 := by
  simp [example2, h]

theorem ex3_fst (o : Oracle) :
    (example3 o).1 =
      "\n3. Using Pandas Series" :: strTimes "-" 40 ::
        (tryExcept (ex3body o) errH).1 := by
  simp [example3]

theorem ex4_fst (o : Oracle) :
    (example4 o).1 =
      "\n4. Different Models" :: strTimes "-" 40 ::
        (tryExcept (ex4body o) errH).1 := by
  simp [example4]

theorem ex5_fst (o : Oracle) :
    (example5 o).1 =
      "\n5. Model Info & Health Check" :: strTimes "-" 40 ::
        (tryExcept (ex5body o) errH).1 := by
  simp [example5]

theorem pandas_fst (o : Oracle) :
    (pandasExample o).1 =
      "\n📊 Advanced Pandas Example" :: strTimes "=" 30 ::
        "Sample data (last 5 days):" :: o.random_tail ::
          (tryExcept (pandasBody o) errH).1 := by
  simp [pandasExample]

-- Decomposition of main and of the whole script run, in the two cases
-- of the unguarded client construction.

theorem pyMain_eq_ok (o : Oracle) (h : o.simpleTSFMClient = Except.ok ()) :
    pyMain o =
      ("🚀 TSFM Client - Simple Usage Examples" :: strTimes "=" 50 ::
        ((example1 o).1 ++ ((example2 o).1 ++ ((example3 o).1 ++
          ((example4 o).1 ++ ((example5 o).1 ++
            ["\n🎉 All examples completed!"]))))), Except.ok ()) := by
  simp only [pyMain, bind_is_M_bind, bind_emit]
  rw [bind_of_snd_ok _ _ (ex1_snd o)]
  rw [bind_of_snd_ok _ _ (ex2_snd_ok o h)]
  rw [bind_of_snd_ok _ _ (ex3_snd o)]
  rw [bind_of_snd_ok _ _ (ex4_snd o)]
  rw [bind_of_snd_ok _ _ (ex5_snd o)]
  simp [emit]

theorem pyMain_eq_err (o : Oracle) (e : String)
    (h : o.simpleTSFMClient = Except.error e) :
    pyMain o =
      ("🚀 TSFM Client - Simple Usage Examples" :: strTimes "=" 50 ::
        ((example1 o).1 ++
          ["\n2. Client Instance (Multiple Predictions)", strTimes "-" 40]),
        Except.error e) := by
  simp only [pyMain, bind_is_M_bind, bind_emit]
  rw [bind_of_snd_ok _ _ (ex1_snd o)]
  rw [ex2_eq_err o e h]
  rw [bind_of_snd_err
    ((["\n2. Client Instance (Multiple Predictions)", strTimes "-" 40],
      Except.error e) : M Unit) _ e rfl]

theorem script_eq_ok (o : Oracle) (h : o.simpleTSFMClient = Except.ok ()) :
    script o =
      ("Make sure the TSFM server is running on http://localhost:8000" ::
        "" :: ((pyMain o).1 ++ (pandasExample o).1), Except.ok ()) := by
  simp only [script, bind_is_M_bind, bind_emit]
  rw [bind_of_snd_ok _ _ (by rw [pyMain_eq_ok o h])]
  simp [pandas_snd]

theorem script_eq_err (o : Oracle) (e : String)
    (h : o.simpleTSFMClient = Except.error e) :
    script o =
      ("Make sure the TSFM server is running on http://localhost:8000" ::
        "" :: (pyMain o).1, Except.error e) := by
  simp only [script, bind_is_M_bind, bind_emit]
  rw [bind_of_snd_err _ _ e (by rw [pyMain_eq_err o e h])]

-- In every run, each block prints a success line or a caught failure
-- line: casing on the first client interaction of the block that can
-- decide the outcome.

theorem exDisj1 (o : Oracle) :
    (∃ f, ("✅ Forecast: " ++ f) ∈ (example1 o).1) ∨
      (∃ e, ("❌ Error: " ++ e) ∈ (example1 o).1) := by
  rcases hg : o.predict_global with e | r
  · exact Or.inr ⟨e, by simp [example1, ex1body, hg, M.bind, callx, tryExcept, errH, emit]⟩
  · rcases hf : r.forecast with e | f
    · exact Or.inr ⟨e, by simp [example1, ex1body, hg, hf, M.bind, callx, tryExcept, errH, emit]⟩
    · refine Or.inl ⟨f, ?_⟩
      rw [ex1_fst]
      have hb : ("✅ Forecast: " ++ f) ∈ (ex1body o).1 := by
        simp [ex1body, M.bind, callx, emit, hg, hf]
      simp only [List.mem_cons]
      exact Or.inr (Or.inr (Or.inr (mem_tryExcept_body _ errH hb)))

theorem exDisj2 (o : Oracle) (h : o.simpleTSFMClient = Except.ok ()) :
    (∃ f, ("✅ Simple forecast: " ++ f) ∈ (example2 o).1) ∨
      (∃ e, ("❌ Error: " ++ e) ∈ (example2 o).1) := by
  rcases hl : o.list_models with e | m
  · exact Or.inr ⟨e, by simp [example2, ex2body, h, hl, M.bind, callx, tryExcept, errH, emit]⟩
  · rcases hp : o.predict_2a with e | r
    · exact Or.inr ⟨e, by
        simp [example2, ex2body, h, hl, hp, M.bind, callx, tryExcept, errH, emit]⟩
    · rcases hf : r.forecast with e | f
      · exact Or.inr ⟨e, by
          simp [example2, ex2body, h, hl, hp, hf, M.bind, callx, tryExcept, errH, emit]⟩
      · refine Or.inl ⟨f, ?_⟩
        rw [ex2_fst_ok o h]
        have hb : ("✅ Simple forecast: " ++ f) ∈ (ex2body o).1 := by
          simp [ex2body, M.bind, callx, emit, hl, hp, hf]
        simp only [List.mem_cons]
        exact Or.inr (Or.inr (mem_tryExcept_body _ errH hb))

theorem exDisj3 (o : Oracle) :
    (∃ f, ("✅ Forecast: " ++ f) ∈ (example3 o).1) ∨
      (∃ e, ("❌ Error: " ++ e) ∈ (example3 o).1) := by
  rcases hp : o.predict_3 with e | r
  · exact Or.inr ⟨e, by simp [example3, ex3body, hp, M.bind, callx, tryExcept, errH, emit]⟩
  · rcases hf : r.forecast with e | f
    · exact Or.inr ⟨e, by simp [example3, ex3body, hp, hf, M.bind, callx, tryExcept, errH, emit]⟩
    · refine Or.inl ⟨f, ?_⟩
      rw [ex3_fst]
      have hb : ("✅ Forecast: " ++ f) ∈ (ex3body o).1 := by
        simp [ex3body, M.bind, callx, emit, hp, hf]
      simp only [List.mem_cons]
      exact Or.inr (Or.inr (mem_tryExcept_body _ errH hb))

theorem exDisj4 (o : Oracle) :
    (∃ f, ("✅ Chronos T5 Small: " ++ f) ∈ (example4 o).1) ∨
      (∃ e, ("❌ Error: " ++ e) ∈ (example4 o).1) := by
  rcases hp : o.predict_4_chronos with e | r
  · exact Or.inr ⟨e, by simp [example4, ex4body, hp, M.bind, callx, tryExcept, errH, emit]⟩
  · rcases hf : r.forecast with e | f
    · exact Or.inr ⟨e, by simp [example4, ex4body, hp, hf, M.bind, callx, tryExcept, errH, emit]⟩
    · refine Or.inl ⟨f, ?_⟩
      rw [ex4_fst]
      have hb : ("✅ Chronos T5 Small: " ++ f) ∈ (ex4body o).1 := by
        simp [ex4body, M.bind, callx, emit, hp, hf]
      simp only [List.mem_cons]
      exact Or.inr (Or.inr (mem_tryExcept_body _ errH hb))

theorem exDisj5 (o : Oracle) :
    (∃ v, ("✅ Health check: " ++ v) ∈ (example5 o).1) ∨
      (∃ e, ("❌ Error: " ++ e) ∈ (example5 o).1) := by
  rcases hh : o.health_check with e | v
  · exact Or.inr ⟨e, by simp [example5, ex5body, hh, M.bind, callx, tryExcept, errH, emit]⟩
  · refine Or.inl ⟨v, ?_⟩
    rw [ex5_fst]
    have hb : ("✅ Health check: " ++ v) ∈ (ex5body o).1 := by
      simp [ex5body, M.bind, callx, emit, hh]
    simp only [List.mem_cons]
    exact Or.inr (Or.inr (mem_tryExcept_body _ errH hb))

theorem exDisjP (o : Oracle) :
    (∃ f, ("\n✅ 10-day forecast: " ++ f) ∈ (pandasExample o).1) ∨
      (∃ e, ("❌ Error: " ++ e) ∈ (pandasExample o).1) := by
  rcases hp : o.predict_pandas with e | r
  · exact Or.inr ⟨e, by
      simp [pandasExample, pandasBody, hp, M.bind, callx, tryExcept, errH, emit]⟩
  · rcases hf : r.forecast with e | f
    · exact Or.inr ⟨e, by
        simp [pandasExample, pandasBody, hp, hf, M.bind, callx, tryExcept, errH, emit]⟩
    · refine Or.inl ⟨f, ?_⟩
      rw [pandas_fst]
      have hb : ("\n✅ 10-day forecast: " ++ f) ∈ (pandasBody o).1 := by
        simp [pandasBody, M.bind, callx, emit, hp, hf]
      simp only [List.mem_cons]
      exact Or.inr (Or.inr (Or.inr (Or.inr (mem_tryExcept_body _ errH hb))))

-- Projections of the decompositions and heading membership.

theorem script_fst_ok (o : Oracle) (h : o.simpleTSFMClient = Except.ok ()) :
    (script o).1 =
      "Make sure the TSFM server is running on http://localhost:8000" ::
        "" :: ((pyMain o).1 ++ (pandasExample o).1) := by
  rw [script_eq_ok o h]

theorem pyMain_fst_ok (o : Oracle) (h : o.simpleTSFMClient = Except.ok ()) :
    (pyMain o).1 =
      "🚀 TSFM Client - Simple Usage Examples" :: strTimes "=" 50 ::
        ((example1 o).1 ++ ((example2 o).1 ++ ((example3 o).1 ++
          ((example4 o).1 ++ ((example5 o).1 ++
            ["\n🎉 All examples completed!"]))))) := by
  rw [pyMain_eq_ok o h]

theorem hd1_mem (o : Oracle) :
    "\n1. Quick Prediction (Global Function)" ∈ (example1 o).1 := by
  rw [ex1_fst]; simp

theorem hd2_mem (o : Oracle) :
    "\n2. Client Instance (Multiple Predictions)" ∈ (example2 o).1 := by
  simp [example2]

theorem hd3_mem (o : Oracle) : "\n3. Using Pandas Series" ∈ (example3 o).1 := by
  rw [ex3_fst]; simp

theorem hd4_mem (o : Oracle) : "\n4. Different Models" ∈ (example4 o).1 := by
  rw [ex4_fst]; simp

theorem hd5_mem (o : Oracle) :
    "\n5. Model Info & Health Check" ∈ (example5 o).1 := by
  rw [ex5_fst]; simp

theorem hdP_mem (o : Oracle) :
    "\n📊 Advanced Pandas Example" ∈ (pandasExample o).1 := by
  rw [pandas_fst]; simp

-- Lifting a line printed inside one block to the output of the whole
-- script run.

theorem mem_script_ex1 (o : Oracle) (h : o.simpleTSFMClient = Except.ok ())
    {s : String} (hs : s ∈ (example1 o).1) : s ∈ (script o).1 := by
  rw [script_fst_ok o h, pyMain_fst_ok o h]
  simp only [List.mem_cons, List.mem_append]
  tauto

theorem mem_script_ex2 (o : Oracle) (h : o.simpleTSFMClient = Except.ok ())
    {s : String} (hs : s ∈ (example2 o).1) : s ∈ (script o).1 := by
  rw [script_fst_ok o h, pyMain_fst_ok o h]
  simp only [List.mem_cons, List.mem_append]
  tauto

theorem mem_script_ex3 (o : Oracle) (h : o.simpleTSFMClient = Except.ok ())
    {s : String} (hs : s ∈ (example3 o).1) : s ∈ (script o).1 := by
  rw [script_fst_ok o h, pyMain_fst_ok o h]
  simp only [List.mem_cons, List.mem_append]
  tauto

theorem mem_script_ex4 (o : Oracle) (h : o.simpleTSFMClient = Except.ok ())
    {s : String} (hs : s ∈ (example4 o).1) : s ∈ (script o).1 := by
  rw [script_fst_ok o h, pyMain_fst_ok o h]
  simp only [List.mem_cons, List.mem_append]
  tauto

theorem mem_script_ex5 (o : Oracle) (h : o.simpleTSFMClient = Except.ok ())
    {s : String} (hs : s ∈ (example5 o).1) : s ∈ (script o).1 := by
  rw [script_fst_ok o h, pyMain_fst_ok o h]
  simp only [List.mem_cons, List.mem_append]
  tauto

theorem mem_script_pandas (o : Oracle) (h : o.simpleTSFMClient = Except.ok ())
    {s : String} (hs : s ∈ (pandasExample o).1) : s ∈ (script o).1 := by
  rw [script_fst_ok o h]
  simp only [List.mem_cons, List.mem_append]
  tauto

-- Single-fault runs: the construction always succeeds there, the
-- script completes, and the failure line of the faulted site is
-- printed.

theorem faultAt_ctor (k : Fin 10) (e : String) :
    (faultAt k e).simpleTSFMClient = Except.ok () := by
  rcases k with ⟨kv, hlt⟩
  unfold faultAt
  interval_cases kv <;> rfl

theorem fault_script_ok (k : Fin 10) (e : String) :
    (script (faultAt k e)).2 = Except.ok () := by
  rw [script_eq_ok _ (faultAt_ctor k e)]

theorem fault_script_mem (k : Fin 10) (e : String) :
    faultLine k e ∈ (script (faultAt k e)).1 := by
  rcases k with ⟨kv, hlt⟩
  interval_cases kv
  · exact mem_script_ex1 _ (faultAt_ctor _ e) (by
      simp [example1, ex1body, faultAt, allOk, okResponse, M.bind, callx,
        tryExcept, errH, emit, faultLine])
  · exact mem_script_ex2 _ (faultAt_ctor _ e) (by
      simp [example2, ex2body, faultAt, allOk, okResponse, M.bind, callx,
        tryExcept, errH, emit, faultLine])
  · exact mem_script_ex2 _ (faultAt_ctor _ e) (by
      simp [example2, ex2body, faultAt, allOk, okResponse, M.bind, callx,
        tryExcept, errH, emit, faultLine])
  · exact mem_script_ex2 _ (faultAt_ctor _ e) (by
      simp [example2, ex2body, faultAt, allOk, okResponse, M.bind, callx,
        tryExcept, errH, emit, faultLine])
  · exact mem_script_ex3 _ (faultAt_ctor _ e) (by
      simp [example3, ex3body, faultAt, allOk, okResponse, M.bind, callx,
        tryExcept, errH, emit, faultLine])
  · exact mem_script_ex4 _ (faultAt_ctor _ e) (by
      simp [example4, ex4body, ex4inner, faultAt, allOk, okResponse, M.bind,
        callx, tryExcept, errH, totoH, emit, faultLine])
  · exact mem_script_ex4 _ (faultAt_ctor _ e) (by
      simp [example4, ex4body, ex4inner, faultAt, allOk, okResponse, M.bind,
        callx, tryExcept, errH, totoH, emit, faultLine])
  · exact mem_script_ex5 _ (faultAt_ctor _ e) (by
      simp [example5, ex5body, faultAt, allOk, okResponse, M.bind, callx,
        tryExcept, errH, emit, faultLine])
  · exact mem_script_ex5 _ (faultAt_ctor _ e) (by
      simp [example5, ex5body, faultAt, allOk, okResponse, M.bind, callx,
        tryExcept, errH, emit, faultLine])
  · exact mem_script_pandas _ (faultAt_ctor _ e) (by
      simp [pandasExample, pandasBody, faultAt, allOk, okResponse, M.bind,
        callx, tryExcept, errH, emit, faultLine])

theorem faultLine_of_ne (k : Fin 10) (e : String) (hk : k.val ≠ 6) :
    faultLine k e = "❌ Error: " ++ e := by
  rcases k with ⟨kv, hlt⟩
  interval_cases kv <;> simp_all [faultLine]

-- The seven predict call sites are seven of the ten guarded sites.

def predictSite (k : Fin 7) : Fin 10 :=
  match k.val with
  | 0 => 0
  | 1 => 2
  | 2 => 3
  | 3 => 4
  | 4 => 5
  | 5 => 6
  | _ => 9

theorem predictFault_eq (k : Fin 7) (e : String) :
    predictFault k e = faultAt (predictSite k) e := by
  rcases k with ⟨kv, hlt⟩
  interval_cases kv <;> rfl

theorem predictFaultLine_eq (k : Fin 7) (e : String) :
    predictFaultLine k e = faultLine (predictSite k) e := by
  rcases k with ⟨kv, hlt⟩
  interval_cases kv <;> rfl

-- The claims.

/-- Claim C1, counterexample: there is a behaviour of the external
client library, namely one in which the SimpleTSFMClient constructor
raises, under which the script does not run to completion: the
exception escapes uncaught, because the constructor call on source line
41 is outside every try block. -/
theorem c1_counterexample :
    (script o_ctor_fail).2 = Except.error "no api key" := rfl

/-- Claim C1, amended: for every behaviour of the external client
library in which the SimpleTSFMClient constructor does not raise, the
script runs to completion without an uncaught exception; the
constructor call is the one client interaction not guarded by any
handler. -/
theorem c1_amended (o : Oracle) (h : o.simpleTSFMClient = Except.ok ()) :
    (script o).2 = Except.ok () := by
  rw [script_eq_ok o h]

/-- Witness for c1_amended at the all-success behaviour. -/
theorem c1_amended_witness : (script allOk).2 = Except.ok () :=
  c1_amended allOk rfl

/-- Claim C2, counterexample: the client construction is a call into the
client library that is not inside any try block: when it raises, no
failure message mentioning its error is printed and the exception
propagates out of the script. -/
theorem c2_counterexample :
    ("❌ Error: no api key") ∉ (script o_ctor_fail).1 ∧
      (script o_ctor_fail).2 = Except.error "no api key" := by
  exact ⟨by decide, rfl⟩

/-- Claim C2, amended: every call the script makes into the client
library, other than the SimpleTSFMClient construction, occurs inside a
try block whose except clause catches any exception and prints a
failure message: for each of the ten guarded call sites, a run in which
exactly that call raises prints the corresponding failure line and
completes normally, while a run in which the construction raises aborts
with that exception uncaught. -/
theorem c2_amended :
    (∀ (k : Fin 10) (e : String),
        faultLine k e ∈ (script (faultAt k e)).1 ∧
          (script (faultAt k e)).2 = Except.ok ()) ∧
      (∀ e : String, (script (ctorFault e)).2 = Except.error e) := by
  constructor
  · intro k e
    exact ⟨fault_script_mem k e, fault_script_ok k e⟩
  · intro e
    rw [script_eq_err (ctorFault e) e rfl]

/-- Claim C3, counterexample: a run in which the calls of example 1
raise and are caught by its handler, but the client construction of
example 2 also raises: example 1 prints its failure line, yet example 3
never executes and the script aborts, so a caught failure followed by
the unguarded construction does prevent subsequent examples. -/
theorem c3_counterexample :
    ("❌ Error: net down") ∈ (script o_caught_then_ctor).1 ∧
      ("\n3. Using Pandas Series") ∉ (script o_caught_then_ctor).1 ∧
      (script o_caught_then_ctor).2 = Except.error "no api key" := by
  exact ⟨by decide, by decide, rfl⟩

/-- Claim C3, amended: provided the SimpleTSFMClient constructor does
not raise, no failure caught by a handler prevents any later example or
pandas_example from running: in every such run each example heading and
the pandas heading are printed and the script completes normally. -/
theorem c3_amended (o : Oracle) (h : o.simpleTSFMClient = Except.ok ()) :
    (script o).2 = Except.ok () ∧
      "\n1. Quick Prediction (Global Function)" ∈ (script o).1 ∧
      "\n2. Client Instance (Multiple Predictions)" ∈ (script o).1 ∧
      "\n3. Using Pandas Series" ∈ (script o).1 ∧
      "\n4. Different Models" ∈ (script o).1 ∧
      "\n5. Model Info & Health Check" ∈ (script o).1 ∧
      "\n📊 Advanced Pandas Example" ∈ (script o).1 := by
  refine ⟨by rw [script_eq_ok o h], ?_, ?_, ?_, ?_, ?_, ?_⟩
  · simp [script_fst_ok o h, pyMain_fst_ok o h, hd1_mem o]
  · simp [script_fst_ok o h, pyMain_fst_ok o h, hd2_mem o]
  · simp [script_fst_ok o h, pyMain_fst_ok o h, hd3_mem o]
  · simp [script_fst_ok o h, pyMain_fst_ok o h, hd4_mem o]
  · simp [script_fst_ok o h, pyMain_fst_ok o h, hd5_mem o]
  · simp [script_fst_ok o h, hdP_mem o]

/-- Witness for c3_amended at the all-success behaviour. -/
theorem c3_amended_witness :
    (script allOk).2 = Except.ok () ∧
      "\n1. Quick Prediction (Global Function)" ∈ (script allOk).1 ∧
      "\n2. Client Instance (Multiple Predictions)" ∈ (script allOk).1 ∧
      "\n3. Using Pandas Series" ∈ (script allOk).1 ∧
      "\n4. Different Models" ∈ (script allOk).1 ∧
      "\n5. Model Info & Health Check" ∈ (script allOk).1 ∧
      "\n📊 Advanced Pandas Example" ∈ (script allOk).1 :=
  c3_amended allOk rfl

/-- Claim C4, counterexample: a run in which only the TOTO predict of
example 4 raises prints the dedicated warning message for it and no
generic failure message mentioning that error, so not every exception
is reported with the same generic failure-message form. -/
theorem c4_counterexample :
    ("⚠️  TOTO model not available: boom") ∈ (script o_toto_fail).1 ∧
      ("❌ Error: boom") ∉ (script o_toto_fail).1 := by
  exact ⟨by decide, by decide⟩

/-- Claim C4, amended: every exception raised by a guarded client call
is caught by a handler for the bare Exception type, with no retry: the
nine sites other than the TOTO predict are reported with the generic
failure form, the TOTO predict is reported with its dedicated warning
form by the inner handler of example 4, and an exception from the
unguarded constructor is not caught at all. -/
theorem c4_amended :
    (∀ (k : Fin 10) (e : String), k.val ≠ 6 →
        ("❌ Error: " ++ e) ∈ (script (faultAt k e)).1 ∧
          (script (faultAt k e)).2 = Except.ok ()) ∧
      (∀ e : String,
        ("⚠️  TOTO model not available: " ++ e) ∈
            (script (faultAt (6 : Fin 10) e)).1 ∧
          (script (faultAt (6 : Fin 10) e)).2 = Except.ok ()) ∧
      (∀ e : String, (script (ctorFault e)).2 = Except.error e) := by
  refine ⟨?_, ?_, ?_⟩
  · intro k e hk
    exact ⟨faultLine_of_ne k e hk ▸ fault_script_mem k e, fault_script_ok k e⟩
  · intro e
    exact ⟨fault_script_mem (6 : Fin 10) e, fault_script_ok (6 : Fin 10) e⟩
  · intro e
    rw [script_eq_err (ctorFault e) e rfl]

/-- Witness for c4_amended at the first guarded site with a concrete
error message. -/
theorem c4_amended_witness :
    ("❌ Error: down") ∈ (script (faultAt (0 : Fin 10) "down")).1 ∧
      (script (faultAt (0 : Fin 10) "down")).2 = Except.ok () :=
  c4_amended.1 (0 : Fin 10) "down" (by decide)

/-- Claim C5, counterexample: in the run in which every call succeeds,
the block of example 5 prints exactly its heading, separator, health
line and model-info line; none of these lines mentions the forecast
value of the responses and none is a failure message, so example 5
produces neither a success message containing a forecast nor a failure
message. -/
theorem c5_counterexample :
    (example5 allOk).1 =
      ["\n5. Model Info & Health Check", strTimes "-" 40,
        "✅ Health check: HEALTH", "✅ Model info: INFO"] ∧
      exFiveMentions = false := by
  exact ⟨rfl, rfl⟩

/-- Claim C5, amended: provided the client construction succeeds, each
of the prediction examples 1 to 4 and the pandas example prints a
success line containing a forecast or a failure line containing the
caught error, while example 5 prints a success line reporting the
health check result or a failure line containing the caught error. -/
theorem c5_amended (o : Oracle) (h : o.simpleTSFMClient = Except.ok ()) :
    ((∃ f, ("✅ Forecast: " ++ f) ∈ (example1 o).1) ∨
        (∃ e, ("❌ Error: " ++ e) ∈ (example1 o).1)) ∧
      ((∃ f, ("✅ Simple forecast: " ++ f) ∈ (example2 o).1) ∨
        (∃ e, ("❌ Error: " ++ e) ∈ (example2 o).1)) ∧
      ((∃ f, ("✅ Forecast: " ++ f) ∈ (example3 o).1) ∨
        (∃ e, ("❌ Error: " ++ e) ∈ (example3 o).1)) ∧
      ((∃ f, ("✅ Chronos T5 Small: " ++ f) ∈ (example4 o).1) ∨
        (∃ e, ("❌ Error: " ++ e) ∈ (example4 o).1)) ∧
      ((∃ v, ("✅ Health check: " ++ v) ∈ (example5 o).1) ∨
        (∃ e, ("❌ Error: " ++ e) ∈ (example5 o).1)) ∧
      ((∃ f, ("\n✅ 10-day forecast: " ++ f) ∈ (pandasExample o).1) ∨
        (∃ e, ("❌ Error: " ++ e) ∈ (pandasExample o).1)) :=
  ⟨exDisj1 o, exDisj2 o h, exDisj3 o, exDisj4 o, exDisj5 o, exDisjP o⟩

/-- Witness for c5_amended at the all-success behaviour. -/
theorem c5_amended_witness :
    ((∃ f, ("✅ Forecast: " ++ f) ∈ (example1 allOk).1) ∨
        (∃ e, ("❌ Error: " ++ e) ∈ (example1 allOk).1)) ∧
      ((∃ f, ("✅ Simple forecast: " ++ f) ∈ (example2 allOk).1) ∨
        (∃ e, ("❌ Error: " ++ e) ∈ (example2 allOk).1)) ∧
      ((∃ f, ("✅ Forecast: " ++ f) ∈ (example3 allOk).1) ∨
        (∃ e, ("❌ Error: " ++ e) ∈ (example3 allOk).1)) ∧
      ((∃ f, ("✅ Chronos T5 Small: " ++ f) ∈ (example4 allOk).1) ∨
        (∃ e, ("❌ Error: " ++ e) ∈ (example4 allOk).1)) ∧
      ((∃ v, ("✅ Health check: " ++ v) ∈ (example5 allOk).1) ∨
        (∃ e, ("❌ Error: " ++ e) ∈ (example5 allOk).1)) ∧
      ((∃ f, ("\n✅ 10-day forecast: " ++ f) ∈ (pandasExample allOk).1) ∨
        (∃ e, ("❌ Error: " ++ e) ∈ (pandasExample allOk).1)) :=
  c5_amended allOk rfl

/-- Claim C6, counterexample: the predict invocation on source line 49
passes only the data: it supplies no forecast horizon, so not every
predict invocation of the script submits a forecast length. -/
theorem c6_counterexample :
    bareCall ∈ predictCalls ∧ bareCall.forecast_horizon = none := by
  exact ⟨by decide, rfl⟩

/-- Claim C6, amended: every predict invocation of the script submits a
time series, every one except the bare call on source line 49 also
submits a forecast length, and confidence bounds and a model name
appear only as optional arguments; moreover any error raised by a
predict call is caught generically at the enclosing handler of its call
site and printed, the TOTO call by the dedicated inner handler. -/
theorem c6_amended :
    (∀ c ∈ predictCalls, c.has_data = true) ∧
      (∀ c ∈ predictCalls, c.line ≠ 49 → c.forecast_horizon.isSome = true) ∧
      (∀ (k : Fin 7) (e : String),
        predictFaultLine k e ∈ (script (predictFault k e)).1 ∧
          (script (predictFault k e)).2 = Except.ok ()) := by
  refine ⟨by decide, by decide, ?_⟩
  intro k e
  rw [predictFault_eq k e, predictFaultLine_eq k e]
  exact ⟨fault_script_mem _ e, fault_script_ok _ e⟩

/-- Witness for c6_amended at the predict invocation of source line 27. -/
theorem c6_amended_witness :
    (⟨27, true, some 5, none, none⟩ : PredictCall).has_data = true ∧
      ((⟨27, true, some 5, none, none⟩ : PredictCall).forecast_horizon).isSome
        = true :=
  ⟨c6_amended.1 _ (by decide), c6_amended.2.1 _ (by decide) (by decide)⟩

/-- Claim C7: execution is strictly sequential: when the client
construction succeeds, the printed output of the whole run is the
banner lines, then the output of main, then the output of
pandas_example, and the output of main is its two banner lines followed
by the outputs of examples 1 to 5 in order and the completion line; so
each block runs to completion or is caught before the next begins, and
pandas_example starts only after main has returned.  When the
construction raises, main does not return and the run ends with the
output of main alone, pandas_example never starting. -/
theorem c7 (o : Oracle) :
    (o.simpleTSFMClient = Except.ok () →
        script o =
          ("Make sure the TSFM server is running on http://localhost:8000" ::
            "" :: ((pyMain o).1 ++ (pandasExample o).1), Except.ok ()) ∧
          pyMain o =
            ("🚀 TSFM Client - Simple Usage Examples" :: strTimes "=" 50 ::
              ((example1 o).1 ++ ((example2 o).1 ++ ((example3 o).1 ++
                ((example4 o).1 ++ ((example5 o).1 ++
                  ["\n🎉 All examples completed!"]))))), Except.ok ())) ∧
      (∀ e, o.simpleTSFMClient = Except.error e →
        script o =
          ("Make sure the TSFM server is running on http://localhost:8000" ::
            "" :: (pyMain o).1, Except.error e)) :=
  ⟨fun h => ⟨script_eq_ok o h, pyMain_eq_ok o h⟩,
   fun e h => script_eq_err o e h⟩

/-- Witness for c7 at the all-success behaviour. -/
theorem c7_witness :
    script allOk =
      ("Make sure the TSFM server is running on http://localhost:8000" ::
        "" :: ((pyMain allOk).1 ++ (pandasExample allOk).1), Except.ok ()) ∧
      pyMain allOk =
        ("🚀 TSFM Client - Simple Usage Examples" :: strTimes "=" 50 ::
          ((example1 allOk).1 ++ ((example2 allOk).1 ++ ((example3 allOk).1 ++
            ((example4 allOk).1 ++ ((example5 allOk).1 ++
              ["\n🎉 All examples completed!"]))))), Except.ok ()) :=
  (c7 allOk).1 rfl

/-- Claim C8: within example 2, list_models and both predict calls
share a single exception boundary: when list_models raises, the block
prints only its heading, separator and the failure line, independently
of both predict sites, so neither predict executes; when list_models
succeeds and the first predict raises, the block prints the models
line and then the failure line, independently of the second predict
site, so the confidence-interval predict does not execute. -/
theorem c8 (o : Oracle) (e : String)
    (h : o.simpleTSFMClient = Except.ok ()) :
    (o.list_models = Except.error e →
        example2 o =
          (["\n2. Client Instance (Multiple Predictions)", strTimes "-" 40,
            "❌ Error: " ++ e], Except.ok ())) ∧
      (∀ m, o.list_models = Except.ok m → o.predict_2a = Except.error e →
        example2 o =
          (["\n2. Client Instance (Multiple Predictions)", strTimes "-" 40,
            "Available models: " ++ m, "❌ Error: " ++ e], Except.ok ())) := by
  constructor
  · intro hl
    simp [example2, ex2body, h, hl, M.bind, callx, tryExcept, errH, emit]
  · intro m hl hp
    simp [example2, ex2body, h, hl, hp, M.bind, callx, tryExcept, errH, emit]

/-- Witness for c8 at a run in which only list_models raises. -/
theorem c8_witness :
    example2 o_lm_fail =
      (["\n2. Client Instance (Multiple Predictions)", strTimes "-" 40,
        "❌ Error: listing down"], Except.ok ()) :=
  (c8 o_lm_fail "listing down" rfl).1 rfl

/-- Claim C9: in example 4, when the chronos predict and its forecast
access succeed and the TOTO predict raises, the block prints exactly
its heading, separator, the chronos success line and the dedicated
warning line of the inner handler, and completes normally: the TOTO
exception is caught by the inner handler, never reaches the outer
handler of example 4, and never suppresses the rest of the script. -/
theorem c9 (o : Oracle) (r : Response) (f e : String)
    (h1 : o.predict_4_chronos = Except.ok r)
    (h2 : r.forecast = Except.ok f)
    (h3 : o.predict_4_toto = Except.error e) :
    example4 o =
      (["\n4. Different Models", strTimes "-" 40,
        "✅ Chronos T5 Small: " ++ f,
        "⚠️  TOTO model not available: " ++ e], Except.ok ()) := by
  simp [example4, ex4body, ex4inner, h1, h2, h3, M.bind, callx, tryExcept,
    errH, totoH, emit]

/-- Witness for c9 at a run in which only the TOTO predict raises. -/
theorem c9_witness :
    example4 o_c9 =
      (["\n4. Different Models", strTimes "-" 40,
        "✅ Chronos T5 Small: FORECAST_VALUES",
        "⚠️  TOTO model not available: not deployed"], Except.ok ()) :=
  c9 o_c9 okResponse "FORECAST_VALUES" "not deployed" rfl rfl rfl

/-- Claim C10: whenever main returns normally, its output contains the
completion banner, regardless of which guarded calls succeeded. -/
theorem c10 (o : Oracle) (h : (pyMain o).2 = Except.ok ()) :
    "\n🎉 All examples completed!" ∈ (pyMain o).1 := by
  rcases hc : o.simpleTSFMClient with e | u
  · rw [pyMain_eq_err o e hc] at h
    simp at h
  · cases u
    rw [pyMain_fst_ok o hc]
    simp

/-- Witness for c10 at the run in which every guarded call raises and
is caught: the completion banner is still printed. -/
theorem c10_witness :
    (pyMain allGuardedFail).2 = Except.ok () ∧
      "\n🎉 All examples completed!" ∈ (pyMain allGuardedFail).1 :=
  ⟨rfl, c10 allGuardedFail rfl⟩

end TSFM




